import Mathlib

/-!
Verification of the gesture-controller core logic.

Shallow embedding of the Python sources:
  * `gesture_controller/gesture_recognizer.py` — single-frame classifier
    (`recognize_gesture`), majority-vote stabilizer (`stabilize_gesture`,
    `reset`), four-direction swipe detector (`detect_swipe`);
  * `src/gestures/swipe.py` — buffered horizontal swipe detector with a
    wall-clock cooldown (`SwipeDetector.update`);
  * `gesture_controller/os_controller.py` — click cooldown (`left_click`),
    cursor smoothing (`move_cursor`), drag press/release
    (`start_drag`/`stop_drag`);
  * `gesture_controller/main.py` — per-frame action dispatch
    (`_execute_gesture_action`), restricted to its drag-relevant state;
  * `gesture_controller/control_mapper.py` — gesture-to-action table.

Python floats and wall-clock timestamps are modelled as rationals; the
wall clock is passed explicitly as a `now` argument everywhere the Python
code calls `time.time()`.  Python dicts of finger flags are modelled as
association lists in insertion order.
-/

namespace GestureCtrl

/-- The closed set of gesture labels produced by `recognize_gesture`
(the string constants of `gesture_recognizer.py`). -/
inductive Gesture where
  | IDLE
  | POINT
  | LEFT_CLICK
  | RIGHT_CLICK
  | DRAG
  | SCROLL
  | VICTORY
  | THREE_FINGERS
  | THUMBS_UP
  | FIST
  deriving DecidableEq, Repr

/-- `Config.PINCH_THRESHOLD = 0.05` in `gesture_controller/config.py`. -/
def PINCH_THRESHOLD : ℚ := 5 / 100

/-- `Config.PALM_THRESHOLD = 3`. -/
def PALM_THRESHOLD : Nat := 3

/-- `Config.GESTURE_BUFFER_SIZE = 5`. -/
def GESTURE_BUFFER_SIZE : Nat := 5

/-- `Config.GESTURE_CONFIDENCE_THRESHOLD = 3`. -/
def GESTURE_CONFIDENCE_THRESHOLD : Nat := 3

/-- `Config.LEFT_CLICK_COOLDOWN = 0.5`. -/
def LEFT_CLICK_COOLDOWN : ℚ := 1 / 2

/-- `Config.DRAG_HOLD_TIME = 0.3`. -/
def DRAG_HOLD_TIME : ℚ := 3 / 10

/-- `Config.CURSOR_SMOOTHING = 0.6`. -/
def CURSOR_SMOOTHING : ℚ := 6 / 10

/-- `Config.SWIPE_THRESHOLD = 0.15` (four-direction detector). -/
def SWIPE_THRESHOLD : ℚ := 15 / 100

/-- `Config.SWIPE_BUFFER_SIZE = 10`. -/
def SWIPE_BUFFER_SIZE : Nat := 10

/-- `settings.SWIPE_THRESHOLD = 0.18` in `config/settings.py`
(used by `src/gestures/swipe.py`). -/
def settings_SWIPE_THRESHOLD : ℚ := 18 / 100

/-- `SwipeDetector.cooldown = 0.5` in `src/gestures/swipe.py`. -/
def SWIPE_COOLDOWN : ℚ := 1 / 2

/-- A Python dict of finger flags, as an association list in insertion
order (keys unique in any real dict). -/
abbrev FingerMap := List (String × Bool)

/-- `required_keys = {"thumb", "index", "middle", "ring", "pinky"}` in
`GestureRecognizer._validate_finger_states`. -/
def requiredFingers : List String := ["thumb", "index", "middle", "ring", "pinky"]

/-- `GestureRecognizer._validate_finger_states`: accepts any dict whose
key set contains the five required keys (`required_keys.issubset(keys)`). -/
def validate_finger_states (fs : FingerMap) : Bool :=
  requiredFingers.all fun k => (fs.lookup k).isSome

/-- `sum(finger_states.values())` — counts `True` values over *all* keys
of the dict, extras included. -/
def extendedCount (fs : FingerMap) : Nat :=
  (fs.map fun p => if p.2 then 1 else 0).sum

/-- Dict access `finger_states[k]`; only evaluated after validation, so the
`false` default is never reached on validated required keys. -/
def fget (fs : FingerMap) (k : String) : Bool :=
  (fs.lookup k).getD false

/-- The guard `if thumb_index_dist and thumb_index_dist < PINCH_THRESHOLD`:
`None` and `0.0` are falsy in Python. -/
def pinchActive (pinch : Option ℚ) : Bool :=
  match pinch with
  | none => false
  | some d => decide (d ≠ 0) && decide (d < PINCH_THRESHOLD)

/-- `GestureRecognizer.recognize_gesture`.  `finger_states = none` models a
`None` argument; the pinch argument models the thumb-to-index distance
when a hand detector and landmarks are available (`none` when they are
not, or when `calculate_distance` returns `None`). -/
def recognize_gesture (finger_states : Option FingerMap) (pinch : Option ℚ) : Gesture :=
  match finger_states with
  | none => .IDLE
  | some fs =>
    if fs.isEmpty then .IDLE
    else if !validate_finger_states fs then .IDLE
    else
      let cnt := extendedCount fs
      let thumb := fget fs "thumb"
      let index := fget fs "index"
      let middle := fget fs "middle"
      let ring := fget fs "ring"
      let pinky := fget fs "pinky"
      if pinchActive pinch && thumb && index && decide (cnt = 2) then .LEFT_CLICK
      else if pinchActive pinch && index && middle && decide (cnt = 2) then .DRAG
      else if pinchActive pinch && thumb && index then .SCROLL
      else if decide (PALM_THRESHOLD ≤ cnt) && index && middle && ring then .RIGHT_CLICK
      else if decide (cnt = 0) then .FIST
      else if index && middle && !ring && !pinky then .VICTORY
      else if index && middle && ring && !pinky then .THREE_FINGERS
      else if index && !middle && !ring && !pinky then .POINT
      else if thumb && !index && !middle then .THUMBS_UP
      else .IDLE

/-- A five-key finger dict in the insertion order used throughout the
repository's tests. -/
def mkFS (t i m r p : Bool) : FingerMap :=
  [("thumb", t), ("index", i), ("middle", m), ("ring", r), ("pinky", p)]

/-- The §4.2 decision table of the spec restated over the five booleans
(no pinch distance available), with the one amendment the code forces:
the VICTORY, THREE_FINGERS and POINT rules ignore the thumb flag. -/
def decisionTable (t i m r p : Bool) : Gesture :=
  let cnt := t.toNat + i.toNat + m.toNat + r.toNat + p.toNat
  if decide (PALM_THRESHOLD ≤ cnt) && i && m && r then .RIGHT_CLICK
  else if decide (cnt = 0) then .FIST
  else if i && m && !r && !p then .VICTORY
  else if i && m && r && !p then .THREE_FINGERS
  else if i && !m && !r && !p then .POINT
  else if t && !i && !m then .THUMBS_UP
  else .IDLE

/-! ## Temporal stabilizer (`GestureRecognizer.stabilize_gesture` / `reset`) -/

/-- `deque(maxlen=size).append`: push at the right, evicting from the left
whatever exceeds the capacity. -/
def pushBounded {α : Type} (size : Nat) (buf : List α) (x : α) : List α :=
  let b := buf ++ [x]
  b.drop (b.length - size)

/-- The distinct labels of the buffer in first-occurrence order: the key
order of the Python dict built by the `for g in self.gesture_buffer` loop
of `stabilize_gesture`. -/
def firstOccurrences (buf : List Gesture) : List Gesture :=
  buf.foldl (fun acc g => if g ∈ acc then acc else acc ++ [g]) []

/-- One step of Python's `max(gesture_counts, key=gesture_counts.get)`:
the running maximum is replaced only on a strictly greater count, so the
first maximal key in iteration order wins. -/
def pyMaxStep (buf : List Gesture) (best : Option Gesture) (g : Gesture) : Option Gesture :=
  match best with
  | none => some g
  | some b => if buf.count b < buf.count g then some g else some b

/-- `max(gesture_counts, key=gesture_counts.get)` over the dict keys in
insertion order (`none` only for an empty dict, where Python raises). -/
def pyMaxByCount (keys buf : List Gesture) : Option Gesture :=
  keys.foldl (pyMaxStep buf) none

/-- The stabilizer's mutable state: `self.gesture_buffer` (oldest first)
and `self.current_gesture`. -/
structure StabState where
  buffer : List Gesture
  current : Option Gesture
  deriving DecidableEq, Repr

/-- State after `GestureRecognizer.__init__`. -/
def initStab : StabState := ⟨[], none⟩

/-- `GestureRecognizer.stabilize_gesture`, parameterized by
`GESTURE_BUFFER_SIZE` and `GESTURE_CONFIDENCE_THRESHOLD`; returns the
frame's output and the updated state. -/
def stabilize_gesture (size thr : Nat) (s : StabState) (g : Gesture) :
    Option Gesture × StabState :=
  let buf := pushBounded size s.buffer g
  if buf.length < size then (s.current, ⟨buf, s.current⟩)
  else
    match pyMaxByCount (firstOccurrences buf) buf with
    | none => (s.current, ⟨buf, s.current⟩)
    | some m =>
      if thr ≤ buf.count m then (some m, ⟨buf, some m⟩)
      else (s.current, ⟨buf, s.current⟩)

/-- `GestureRecognizer.reset`, restricted to the stabilizer state it
touches: clears the buffer and the stored stable gesture. -/
def stabReset : StabState := ⟨[], none⟩

/-! ## Swipe detectors -/

/-- Swipe directions reported by the detectors (`SwipeDetector.update`
reports only `LEFT`/`RIGHT`; `detect_swipe` reports all four). -/
inductive Direction where
  | LEFT
  | RIGHT
  | UP
  | DOWN
  deriving DecidableEq, Repr

/-- State of `src/gestures/swipe.py`'s `SwipeDetector`: the deque of x
coordinates (`self.x`, maxlen `SWIPE_BUFFER_SIZE`) and
`self.last_swipe_time`. -/
structure SwipeState where
  xs : List ℚ
  lastSwipeTime : ℚ
  deriving DecidableEq, Repr

/-- `SwipeDetector.__init__`: empty buffer, `last_swipe_time = 0`. -/
def initSwipe : SwipeState := ⟨[], 0⟩

/-- `SwipeDetector.update` from `src/gestures/swipe.py`, with the wall
clock passed explicitly as `now` (the code reads `time.time()`). -/
def SwipeDetector.update (threshold cooldown : ℚ) (size : Nat)
    (s : SwipeState) (x now : ℚ) : Option Direction × SwipeState :=
  let xs := pushBounded size s.xs x
  if xs.length < size then (none, ⟨xs, s.lastSwipeTime⟩)
  else if now - s.lastSwipeTime < cooldown then (none, ⟨xs, s.lastSwipeTime⟩)
  else
    let dx := xs.getLast?.getD 0 - xs.head?.getD 0
    if threshold < dx then (some .RIGHT, ⟨[], now⟩)
    else if dx < -threshold then (some .LEFT, ⟨[], now⟩)
    else (none, ⟨xs, s.lastSwipeTime⟩)

/-- Iterated `SwipeDetector.update` over a sequence of
(x coordinate, timestamp) samples, collecting the per-call results. -/
def runSwipe (threshold cooldown : ℚ) (size : Nat) :
    SwipeState → List (ℚ × ℚ) → List (Option Direction) × SwipeState
  | s, [] => ([], s)
  | s, q :: rest =>
    let r := SwipeDetector.update threshold cooldown size s q.1 q.2
    let rr := runSwipe threshold cooldown size r.2 rest
    (r.1 :: rr.1, rr.2)

/-- State of `GestureRecognizer.detect_swipe`: `self.position_history`
(deque of normalized (x, y) samples, maxlen `SWIPE_BUFFER_SIZE`). -/
structure MotionState where
  history : List (ℚ × ℚ)
  deriving DecidableEq, Repr

/-- `dx = end_pos[0] - start_pos[0]` over a position history (oldest
first; the defaults are never reached on the full buffers where this is
evaluated). -/
def dxOf (h : List (ℚ × ℚ)) : ℚ :=
  (h.getLast?.getD (0, 0)).1 - (h.head?.getD (0, 0)).1

/-- `dy = end_pos[1] - start_pos[1]` over a position history. -/
def dyOf (h : List (ℚ × ℚ)) : ℚ :=
  (h.getLast?.getD (0, 0)).2 - (h.head?.getD (0, 0)).2

/-- `GestureRecognizer.detect_swipe`, on the frames where landmarks and
detector are available and the index tip sample `p` was obtained.  The
source compares `np.sqrt(dx**2 + dy**2) < SWIPE_THRESHOLD`; with the
nonnegative configured threshold this is equivalent to the squared
comparison used here, which keeps the function rational-valued. -/
def detect_swipe (threshold : ℚ) (size : Nat) (s : MotionState) (p : ℚ × ℚ) :
    Option Direction × MotionState :=
  let h := pushBounded size s.history p
  if h.length < size then (none, ⟨h⟩)
  else if dxOf h ^ 2 + dyOf h ^ 2 < threshold ^ 2 then (none, ⟨h⟩)
  else if |dyOf h| < |dxOf h| then
    if 0 < dxOf h then (some .RIGHT, ⟨h⟩) else (some .LEFT, ⟨h⟩)
  else
    if 0 < dyOf h then (some .DOWN, ⟨h⟩) else (some .UP, ⟨h⟩)

/-! ## OS controller (clicks, drag, cursor smoothing) -/

/-- Mouse-button events issued to the OS sink (`self.mouse.press` /
`self.mouse.release` on the left button). -/
inductive ButtonEvent where
  | press
  | release
  deriving DecidableEq, Repr

/-- `OSController.start_drag`: presses the left button only when
`is_dragging` is false; returns the issued events and the new
`is_dragging`. -/
def start_drag (is_dragging : Bool) : List ButtonEvent × Bool :=
  if is_dragging then ([], true) else ([.press], true)

/-- `OSController.stop_drag`: releases the left button only when
`is_dragging` is true. -/
def stop_drag (is_dragging : Bool) : List ButtonEvent × Bool :=
  if is_dragging then ([.release], false) else ([], false)

/-- `OSController` click state: `self.last_left_click_time`. -/
structure ClickState where
  last_left_click_time : ℚ
  deriving DecidableEq, Repr

/-- `OSController.left_click` with the wall clock explicit: returns
whether `self.mouse.click` was invoked, and the updated state. -/
def left_click (cooldown : ℚ) (s : ClickState) (now : ℚ) : Bool × ClickState :=
  if now - s.last_left_click_time < cooldown then (false, s)
  else (true, ⟨now⟩)

/-- The exponential-smoothing update applied per axis by
`OSController.move_cursor`: `current += (target - current) * smoothing`. -/
def smooth_step (smoothing c target : ℚ) : ℚ :=
  c + (target - c) * smoothing

/-- The smoothing branch of `move_cursor` on both axes, acting on the
`(self.current_x, self.current_y)` pair for a fixed screen-space target. -/
def move_cursor_smooth (smoothing : ℚ) (c t : ℚ × ℚ) : ℚ × ℚ :=
  (smooth_step smoothing c.1 t.1, smooth_step smoothing c.2 t.2)

/-! ## Action dispatcher (`GestureController._execute_gesture_action`) -/

/-- The action strings of `ControlMapper.gesture_map`. -/
inductive MappedAction where
  | move_cursor
  | left_click
  | right_click
  | double_click
  | drag
  | scroll
  | pause
  deriving DecidableEq, Repr

/-- `ControlMapper.map_gesture_to_action` (`self.gesture_map.get`). -/
def map_gesture_to_action : Gesture → Option MappedAction
  | .POINT => some .move_cursor
  | .LEFT_CLICK => some .left_click
  | .RIGHT_CLICK => some .right_click
  | .DRAG => some .drag
  | .SCROLL => some .scroll
  | .THREE_FINGERS => some .scroll
  | .VICTORY => some .double_click
  | .THUMBS_UP => some .pause
  | .FIST => some .drag
  | .IDLE => none

/-- The dispatcher state `_execute_gesture_action` reads and writes for
dragging: `OSController.is_dragging` and
`GestureController.drag_start_time` (0 = timer unset). -/
structure DispatchState where
  is_dragging : Bool
  drag_start_time : ℚ
  deriving DecidableEq, Repr

/-- `GestureController._execute_gesture_action`, restricted to its
drag-relevant state and the left-button press/release events it can
issue through `start_drag`/`stop_drag`.  Cursor moves, clicks, swipes
and scrolling touch neither `is_dragging` nor `drag_start_time` and are
not modelled; the `gesture` argument is the stabilized gesture
(`none` models Python `None`). -/
def execute_gesture_action (gesture : Option Gesture) (now : ℚ)
    (st : DispatchState) : List ButtonEvent × DispatchState :=
  match gesture with
  | none =>
    let r := stop_drag st.is_dragging
    (r.1, ⟨r.2, 0⟩)
  | some g =>
    if g = .IDLE then
      let r := stop_drag st.is_dragging
      (r.1, ⟨r.2, 0⟩)
    else
      match map_gesture_to_action g with
      | some .move_cursor => ([], st)
      | some .left_click =>
        let r := stop_drag st.is_dragging
        (r.1, ⟨r.2, st.drag_start_time⟩)
      | some .right_click =>
        let r := stop_drag st.is_dragging
        (r.1, ⟨r.2, st.drag_start_time⟩)
      | some .double_click =>
        let r := stop_drag st.is_dragging
        (r.1, ⟨r.2, st.drag_start_time⟩)
      | some .drag =>
        if st.drag_start_time = 0 then ([], ⟨st.is_dragging, now⟩)
        else if DRAG_HOLD_TIME < now - st.drag_start_time then
          let r := start_drag st.is_dragging
          (r.1, ⟨r.2, st.drag_start_time⟩)
        else ([], st)
      | some .scroll => ([], st)
      | some .pause =>
        let r := stop_drag st.is_dragging
        (r.1, ⟨r.2, 0⟩)
      | none =>
        let r := stop_drag st.is_dragging
        (r.1, ⟨r.2, 0⟩)

/-! ## Drag press/release alternation (sequences of drag calls) -/

/-- A call to either drag operation of `OSController`. -/
inductive DragOp where
  | start
  | stop
  deriving DecidableEq, Repr

/-- Run a sequence of `start_drag`/`stop_drag` calls from a given
`is_dragging` state, collecting every issued button event. -/
def runDrag : Bool → List DragOp → List ButtonEvent × Bool
  | d, [] => ([], d)
  | d, op :: ops =>
    let r := match op with
      | .start => start_drag d
      | .stop => stop_drag d
    let rest := runDrag r.2 ops
    (r.1 ++ rest.1, rest.2)

/-- The event expected next if presses and releases strictly alternate. -/
def flipEvent : ButtonEvent → ButtonEvent
  | .press => .release
  | .release => .press

/-- `altFrom e evs` holds when `evs` is an alternating chain whose first
element (if any) is `e`. -/
def altFrom : ButtonEvent → List ButtonEvent → Bool
  | _, [] => true
  | e, x :: xs => decide (x = e) && altFrom (flipEvent e) xs

/-! ## Concrete sample data used by witnesses and counterexamples -/

/-- A dict with the five required keys (all `False`) plus one extra key:
passes the `issubset` validation and has extended count 0. -/
def fsExtraKey : FingerMap := mkFS false false false false false ++ [("extra", false)]

/-- Nine index-tip samples on the x axis, 0.0 … 0.8: one short of a full
ten-sample history for `detect_swipe`. -/
def motionHist9 : List (ℚ × ℚ) :=
  [(0, 0), (1/10, 0), (2/10, 0), (3/10, 0), (4/10, 0),
   (5/10, 0), (6/10, 0), (7/10, 0), (8/10, 0)]

/-- A full nine-sample x buffer 0.1 … 0.9 for `SwipeDetector`, with
`last_swipe_time = 0`. -/
def swipeFullState : SwipeState :=
  ⟨[1/10, 2/10, 3/10, 4/10, 5/10, 6/10, 7/10, 8/10, 9/10], 0⟩

/-- The §8 swipe scenario: x rising monotonically by 0.1 (one frame every
10 ms starting at t = 1 s), spanning 0.1 … 1.0 over the ten samples that
fill the buffer, then one more right-moving sample 20 ms after the swipe
fires — inside the 0.5 s cooldown. -/
def swipeTrace : List (ℚ × ℚ) :=
  [(1/10, 1), (2/10, 101/100), (3/10, 102/100), (4/10, 103/100),
   (5/10, 104/100), (6/10, 105/100), (7/10, 106/100), (8/10, 107/100),
   (9/10, 108/100), (1, 109/100), (11/10, 111/100)]

/-! ## Helper lemmas -/

theorem pushBounded_length {α : Type} (size : Nat) (buf : List α) (x : α) :
    (pushBounded size buf x).length = min (buf.length + 1) size := by
  simp only [pushBounded, List.length_drop, List.length_append, List.length_cons,
    List.length_nil]
  omega

theorem pushBounded_of_lt {α : Type} (size : Nat) (buf : List α) (x : α)
    (h : buf.length < size) : pushBounded size buf x = buf ++ [x] := by
  have h0 : buf.length + 1 - size = 0 := by omega
  simp [pushBounded, h0]

theorem pushBounded_of_eq {α : Type} (size : Nat) (buf : List α) (x : α)
    (hs : 1 ≤ size) (h : buf.length = size) :
    pushBounded size buf x = buf.tail ++ [x] := by
  have h1 : buf.length + 1 - size = 1 := by omega
  simp only [pushBounded, List.length_append, List.length_cons, List.length_nil, h1]
  rw [List.drop_append_of_le_length (by omega)]
  simp [List.drop_one]

theorem mem_foldl_firstOcc (l : List Gesture) :
    ∀ (acc : List Gesture) (x : Gesture),
      x ∈ l.foldl (fun acc g => if g ∈ acc then acc else acc ++ [g]) acc ↔
        x ∈ acc ∨ x ∈ l := by
  induction l with
  | nil => simp
  | cons g l ih =>
    intro acc x
    simp only [List.foldl_cons]
    by_cases hg : g ∈ acc
    · rw [if_pos hg, ih]
      constructor
      · rintro (hx | hx)
        · exact Or.inl hx
        · exact Or.inr (List.mem_cons_of_mem _ hx)
      · rintro (hx | hx)
        · exact Or.inl hx
        · rcases List.mem_cons.mp hx with rfl | hx
          · exact Or.inl hg
          · exact Or.inr hx
    · rw [if_neg hg, ih]
      simp only [List.mem_append, List.mem_singleton, List.mem_cons]
      tauto

theorem mem_firstOccurrences (buf : List Gesture) (x : Gesture) :
    x ∈ firstOccurrences buf ↔ x ∈ buf := by
  have h := mem_foldl_firstOcc buf [] x
  simpa [firstOccurrences] using h

theorem firstOccurrences_ne_nil (buf : List Gesture) (h : buf ≠ []) :
    firstOccurrences buf ≠ [] := by
  match buf, h with
  | g :: l, _ =>
    intro hfo
    have hg : g ∈ firstOccurrences (g :: l) :=
      (mem_firstOccurrences _ _).mpr (List.mem_cons_self _ _)
    rw [hfo] at hg
    exact List.not_mem_nil _ hg

theorem pyMax_from_some (buf : List Gesture) (keys : List Gesture) :
    ∀ b : Gesture,
      ∃ m, keys.foldl (pyMaxStep buf) (some b) = some m ∧
        buf.count b ≤ buf.count m ∧ ∀ k ∈ keys, buf.count k ≤ buf.count m := by
  induction keys with
  | nil =>
    intro b
    exact ⟨b, rfl, le_refl _, by simp⟩
  | cons g ks ih =>
    intro b
    simp only [List.foldl_cons, pyMaxStep]
    by_cases h : buf.count b < buf.count g
    · rw [if_pos h]
      obtain ⟨m, hm, hgm, hall⟩ := ih g
      refine ⟨m, hm, le_trans (le_of_lt h) hgm, ?_⟩
      intro k hk
      rcases List.mem_cons.mp hk with rfl | hk
      · exact hgm
      · exact hall k hk
    · rw [if_neg h]
      obtain ⟨m, hm, hbm, hall⟩ := ih b
      push_neg at h
      refine ⟨m, hm, hbm, ?_⟩
      intro k hk
      rcases List.mem_cons.mp hk with rfl | hk
      · exact le_trans h hbm
      · exact hall k hk

theorem pyMaxByCount_spec (keys buf : List Gesture) (hne : keys ≠ []) :
    ∃ m, pyMaxByCount keys buf = some m ∧ ∀ k ∈ keys, buf.count k ≤ buf.count m := by
  match keys, hne with
  | g :: ks, _ =>
    have h0 : pyMaxByCount (g :: ks) buf = ks.foldl (pyMaxStep buf) (some g) := by
      simp [pyMaxByCount, pyMaxStep]
    obtain ⟨m, hm, hgm, hall⟩ := pyMax_from_some buf ks g
    refine ⟨m, h0.trans hm, ?_⟩
    intro k hk
    rcases List.mem_cons.mp hk with rfl | hk
    · exact hgm
    · exact hall k hk

/-! ## Claim theorems -/

/-- **C1.** The temporal stabilizer (`GestureRecognizer.stabilize_gesture`)
pushes each new raw label into the fixed-capacity buffer, evicting the
oldest label when full; while the buffer holds fewer than `size` labels
it returns the previously stabilized label unchanged; once full it
selects a label of maximal count (a mode of the buffer — the first
maximal one in first-occurrence order, Python's `max` tie-break), and
returns and stores it when its count reaches the confidence threshold,
otherwise returning the previous stabilized label without updating it.
Holds for every state reachable from any sequence of input labels. -/
theorem stabilizer_step_spec (size thr : Nat) (hsz : 1 ≤ size)
    (s : StabState) (g : Gesture) :
    let buf := pushBounded size s.buffer g
    let r := stabilize_gesture size thr s g
    r.2.buffer = buf
    ∧ (s.buffer.length < size → buf = s.buffer ++ [g])
    ∧ (s.buffer.length = size → buf = s.buffer.tail ++ [g])
    ∧ (buf.length < size → r = (s.current, ⟨buf, s.current⟩))
    ∧ (size ≤ buf.length →
        ∃ m, (∀ x ∈ buf, buf.count x ≤ buf.count m)
          ∧ (thr ≤ buf.count m → r = (some m, ⟨buf, some m⟩))
          ∧ (buf.count m < thr → r = (s.current, ⟨buf, s.current⟩))) := by
  intro buf r
  have hbufdef : buf = pushBounded size s.buffer g := rfl
  refine ⟨?_, ?_, ?_, ?_, ?_⟩
  · show (stabilize_gesture size thr s g).2.buffer = buf
    unfold stabilize_gesture
    rw [← hbufdef]
    by_cases hfull : buf.length < size
    · simp [hfull]
    · simp only [hfull, if_false]
      rcases hmax : pyMaxByCount (firstOccurrences buf) buf with _ | m
      · simp
      · by_cases hthr : thr ≤ buf.count m
        · simp [hthr]
        · simp [hthr]
  · intro hlt
    exact hbufdef.trans (pushBounded_of_lt size s.buffer g hlt)
  · intro heq
    exact hbufdef.trans (pushBounded_of_eq size s.buffer g hsz heq)
  · intro hlt
    show stabilize_gesture size thr s g = _
    unfold stabilize_gesture
    rw [← hbufdef, if_pos hlt]
  · intro hge
    have hne : buf ≠ [] := by
      intro h0
      rw [h0] at hge
      simp at hge
      omega
    obtain ⟨m, hm, hall⟩ :=
      pyMaxByCount_spec (firstOccurrences buf) buf (firstOccurrences_ne_nil buf hne)
    refine ⟨m, ?_, ?_, ?_⟩
    · intro x hx
      exact hall x ((mem_firstOccurrences buf x).mpr hx)
    · intro hthr
      show stabilize_gesture size thr s g = _
      unfold stabilize_gesture
      rw [← hbufdef, if_neg (by omega), hm]
      simp [hthr]
    · intro hthr
      show stabilize_gesture size thr s g = _
      unfold stabilize_gesture
      rw [← hbufdef, if_neg (by omega), hm]
      have h2 : ¬ thr ≤ buf.count m := by omega
      simp [h2]

/-- Witness for C1: a full buffer `[POINT, POINT, POINT, FIST]` plus a new
`POINT` has mode `POINT` with count 4 ≥ 3, so the step returns and stores
`POINT`. -/
theorem stabilizer_step_spec_witness :
    ∃ m, (∀ x ∈ pushBounded 5 [Gesture.POINT, .POINT, .POINT, .FIST] .POINT,
            (pushBounded 5 [Gesture.POINT, .POINT, .POINT, .FIST] .POINT).count x
              ≤ (pushBounded 5 [Gesture.POINT, .POINT, .POINT, .FIST] .POINT).count m)
      ∧ (3 ≤ (pushBounded 5 [Gesture.POINT, .POINT, .POINT, .FIST] .POINT).count m →
          stabilize_gesture 5 3 ⟨[Gesture.POINT, .POINT, .POINT, .FIST], none⟩ .POINT
            = (some m, ⟨pushBounded 5 [Gesture.POINT, .POINT, .POINT, .FIST] .POINT, some m⟩))
      ∧ ((pushBounded 5 [Gesture.POINT, .POINT, .POINT, .FIST] .POINT).count m < 3 →
          stabilize_gesture 5 3 ⟨[Gesture.POINT, .POINT, .POINT, .FIST], none⟩ .POINT
            = (none, ⟨pushBounded 5 [Gesture.POINT, .POINT, .POINT, .FIST] .POINT, none⟩)) :=
  (stabilizer_step_spec 5 3 (by decide) ⟨[Gesture.POINT, .POINT, .POINT, .FIST], none⟩
    .POINT).2.2.2.2 (by decide)

/-- **C6.** The stored stabilized gesture is sticky: a stabilization step
either leaves it unchanged or overwrites it with a label whose buffer
count met the confidence threshold; it is never implicitly cleared
(result `none` implies it was already `none`); and the explicit reset is
exactly the empty buffer with an empty stored label. -/
theorem stabilizer_sticky (size thr : Nat) (s : StabState) (g : Gesture) :
    ((stabilize_gesture size thr s g).2.current = s.current
      ∨ ∃ m, thr ≤ (pushBounded size s.buffer g).count m
          ∧ (stabilize_gesture size thr s g).2.current = some m)
    ∧ ((stabilize_gesture size thr s g).2.current = none → s.current = none)
    ∧ stabReset.buffer = [] ∧ stabReset.current = none := by
  have hmain : (stabilize_gesture size thr s g).2.current = s.current
      ∨ ∃ m, thr ≤ (pushBounded size s.buffer g).count m
          ∧ (stabilize_gesture size thr s g).2.current = some m := by
    unfold stabilize_gesture
    by_cases hfull : (pushBounded size s.buffer g).length < size
    · simp [hfull]
    · simp only [hfull, if_false]
      rcases hmax : pyMaxByCount (firstOccurrences (pushBounded size s.buffer g))
          (pushBounded size s.buffer g) with _ | m
      · simp
      · by_cases hthr : thr ≤ (pushBounded size s.buffer g).count m
        · exact Or.inr ⟨m, hthr, by simp [hthr]⟩
        · simp [hthr]
  refine ⟨hmain, ?_, rfl, rfl⟩
  intro hnone
  rcases hmain with h | ⟨m, _, hm⟩
  · exact h ▸ hnone
  · rw [hm] at hnone
    exact absurd hnone (by simp)

/-- Witness for C6: a failing step (buffer not yet full) keeps the stored
label, never clears a set label, and reset is empty. -/
theorem stabilizer_sticky_witness :
    ((stabilize_gesture 5 3 ⟨[], some .FIST⟩ .POINT).2.current = some .FIST
      ∨ ∃ m, 3 ≤ (pushBounded 5 [] Gesture.POINT).count m
          ∧ (stabilize_gesture 5 3 ⟨[], some .FIST⟩ .POINT).2.current = some m)
    ∧ ((stabilize_gesture 5 3 ⟨[], some .FIST⟩ .POINT).2.current = none →
        (some Gesture.FIST : Option Gesture) = none)
    ∧ stabReset.buffer = [] ∧ stabReset.current = none :=
  stabilizer_sticky 5 3 ⟨[], some .FIST⟩ .POINT

/-- **C2 counterexample.** Thumb, index and middle extended with ring and
pinky folded — not "exactly index+middle" — is classified `VICTORY`, not
`IDLE`: the code's VICTORY rule never inspects the thumb flag. -/
theorem classifier_thumb_victory_counterexample :
    recognize_gesture (some (mkFS true true true false false)) none = .VICTORY
    ∧ recognize_gesture (some (mkFS true true true false false)) none ≠ .IDLE := by
  decide

/-- **C2 (amended).** With no pinch distance available, on every
well-formed five-flag input the classifier applies the decision table in
order with first match winning, where the `VICTORY`, `THREE_FINGERS` and
`POINT` rules ignore the thumb flag; exactly index+middle extended yields
`VICTORY`, and thumb+index+middle extended with ring and pinky folded
also yields `VICTORY` (rather than falling to the `IDLE` catch-all). -/
theorem classifier_decision_table :
    (∀ t i m r p : Bool,
      recognize_gesture (some (mkFS t i m r p)) none = decisionTable t i m r p)
    ∧ decisionTable false true true false false = .VICTORY
    ∧ decisionTable true true true false false = .VICTORY := by
  decide

/-- **C3 counterexample.** A dict holding the five required keys plus an
extra key is *not* rejected: `_validate_finger_states` only checks that
the required keys are a subset of the dict's keys, so the all-false dict
with one extra key reaches the decision table and classifies as `FIST`,
not `IDLE`. -/
theorem classifier_extra_keys_counterexample :
    validate_finger_states fsExtraKey = true
    ∧ recognize_gesture (some fsExtraKey) none = .FIST
    ∧ recognize_gesture (some fsExtraKey) none ≠ .IDLE := by
  decide

/-- **C3 (amended).** `None`, the empty dict, and any dict failing the
subset validation (e.g. one missing a required key) are classified `IDLE`
immediately, bypassing all decision-table rules; but a dict containing
the five required keys *plus extra keys* passes validation and is
classified normally. -/
theorem classifier_malformed_idle (p : Option ℚ) (fs : FingerMap) :
    recognize_gesture none p = .IDLE
    ∧ recognize_gesture (some []) p = .IDLE
    ∧ (validate_finger_states fs = false → recognize_gesture (some fs) p = .IDLE)
    ∧ validate_finger_states fsExtraKey = true := by
  refine ⟨rfl, rfl, ?_, by decide⟩
  intro hval
  unfold recognize_gesture
  by_cases he : fs.isEmpty
  · simp [he]
  · simp [he, hval]

/-- Witness for C3 (amended): a dict with only a thumb key fails
validation and is classified `IDLE`. -/
theorem classifier_malformed_idle_witness :
    recognize_gesture (some [("thumb", true)]) none = .IDLE :=
  (classifier_malformed_idle none [("thumb", true)]).2.2.1 (by decide)

/-- **C4.** `SwipeDetector.update` (`src/gestures/swipe.py`): (1) a call
that reports a direction clears the position history and stamps the
cooldown clock; (2) starting from any state, every update whose timestamp
is within the cooldown window of `last_swipe_time` reports `none` and
leaves the stamp unchanged — even across refills of the buffer; (3) the
§8 scenario: x rising monotonically by 0.1 with threshold 0.18 reports
`RIGHT` exactly once — on the call that fills the ten-sample buffer —
and `none` on a further right-moving call 20 ms later, inside the 0.5 s
cooldown. -/
theorem swipe_detector_cooldown_spec (threshold cooldown : ℚ) (size : Nat) :
    (∀ (s : SwipeState) (x now : ℚ) (d : Direction),
        (SwipeDetector.update threshold cooldown size s x now).1 = some d →
          (SwipeDetector.update threshold cooldown size s x now).2 = ⟨[], now⟩)
    ∧ (∀ (s : SwipeState) (samples : List (ℚ × ℚ)),
        (∀ q ∈ samples, q.2 - s.lastSwipeTime < cooldown) →
          (runSwipe threshold cooldown size s samples).1.all (· = none) = true
          ∧ (runSwipe threshold cooldown size s samples).2.lastSwipeTime
              = s.lastSwipeTime)
    ∧ (runSwipe settings_SWIPE_THRESHOLD SWIPE_COOLDOWN 10 initSwipe swipeTrace).1
        = [none, none, none, none, none, none, none, none, none,
           some .RIGHT, none] := by
  refine ⟨?_, ?_, ?_⟩
  · intro s x now d hfire
    unfold SwipeDetector.update at hfire ⊢
    by_cases h1 : (pushBounded size s.xs x).length < size
    · rw [if_pos h1] at hfire
      exact absurd hfire (by simp)
    · rw [if_neg h1] at hfire ⊢
      by_cases h2 : now - s.lastSwipeTime < cooldown
      · rw [if_pos h2] at hfire
        exact absurd hfire (by simp)
      · rw [if_neg h2] at hfire ⊢
        by_cases h3 : threshold <
            (pushBounded size s.xs x).getLast?.getD 0
              - (pushBounded size s.xs x).head?.getD 0
        · rw [if_pos h3]
        · rw [if_neg h3] at hfire ⊢
          by_cases h4 : (pushBounded size s.xs x).getLast?.getD 0
              - (pushBounded size s.xs x).head?.getD 0 < -threshold
          · rw [if_pos h4]
          · rw [if_neg h4] at hfire
            exact absurd hfire (by simp)
  · intro s samples
    induction samples generalizing s with
    | nil => intro _; exact ⟨rfl, rfl⟩
    | cons q rest ih =>
      intro hall
      have hq : q.2 - s.lastSwipeTime < cooldown := hall q (List.mem_cons_self _ _)
      have hupd : (SwipeDetector.update threshold cooldown size s q.1 q.2).1 = none
          ∧ (SwipeDetector.update threshold cooldown size s q.1 q.2).2.lastSwipeTime
              = s.lastSwipeTime := by
        unfold SwipeDetector.update
        by_cases h1 : (pushBounded size s.xs q.1).length < size
        · simp [h1]
        · simp [h1, hq]
      have hrest := ih (SwipeDetector.update threshold cooldown size s q.1 q.2).2
        (by
          intro q' hq'
          rw [hupd.2]
          exact hall q' (List.mem_cons_of_mem _ hq'))
      refine ⟨?_, ?_⟩
      · simp only [runSwipe, List.all_cons, hupd.1, hrest.1]
        rfl
      · simp only [runSwipe, hrest.2, hupd.2]
  · norm_num [runSwipe, SwipeDetector.update, pushBounded, initSwipe, swipeTrace,
      settings_SWIPE_THRESHOLD, SWIPE_COOLDOWN]

/-- Witness for C4: firing from a full buffer clears the history and
stamps the cooldown clock. -/
theorem swipe_detector_cooldown_spec_witness :
    (SwipeDetector.update settings_SWIPE_THRESHOLD SWIPE_COOLDOWN 10
        swipeFullState 1 1).2 = ⟨[], 1⟩ :=
  (swipe_detector_cooldown_spec settings_SWIPE_THRESHOLD SWIPE_COOLDOWN 10).1
    swipeFullState 1 1 .RIGHT
    (by norm_num [SwipeDetector.update, pushBounded, swipeFullState,
      settings_SWIPE_THRESHOLD, SWIPE_COOLDOWN])

/-- **C7.** `GestureRecognizer.detect_swipe` reports a swipe only when the
position history is full; it then takes the displacement end − start of
the buffer, reports `none` when its magnitude is below the threshold
(stated via the equivalent squared comparison), and otherwise classifies
RIGHT/LEFT by the sign of dx when |dx| > |dy| and DOWN/UP by the sign of
dy otherwise — for every state and every new position sample. -/
theorem detect_swipe_spec (threshold : ℚ) (size : Nat) (s : MotionState)
    (p : ℚ × ℚ) :
    (detect_swipe threshold size s p).2.history = pushBounded size s.history p
    ∧ ((pushBounded size s.history p).length < size →
        (detect_swipe threshold size s p).1 = none)
    ∧ (size ≤ (pushBounded size s.history p).length →
        dxOf (pushBounded size s.history p) ^ 2
            + dyOf (pushBounded size s.history p) ^ 2 < threshold ^ 2 →
        (detect_swipe threshold size s p).1 = none)
    ∧ (size ≤ (pushBounded size s.history p).length →
        threshold ^ 2 ≤ dxOf (pushBounded size s.history p) ^ 2
            + dyOf (pushBounded size s.history p) ^ 2 →
        (detect_swipe threshold size s p).1
          = some (if |dyOf (pushBounded size s.history p)|
                      < |dxOf (pushBounded size s.history p)| then
                    (if 0 < dxOf (pushBounded size s.history p) then .RIGHT else .LEFT)
                  else
                    (if 0 < dyOf (pushBounded size s.history p) then .DOWN else .UP))) := by
  refine ⟨?_, ?_, ?_, ?_⟩
  · simp only [detect_swipe]
    split_ifs <;> rfl
  · intro hlt
    simp [detect_swipe, hlt]
  · intro hge hmag
    have h1 : ¬ (pushBounded size s.history p).length < size := not_lt.mpr hge
    simp [detect_swipe, h1, hmag]
  · intro hge hmag
    have h1 : ¬ (pushBounded size s.history p).length < size := not_lt.mpr hge
    have h2 : ¬ (dxOf (pushBounded size s.history p) ^ 2
        + dyOf (pushBounded size s.history p) ^ 2 < threshold ^ 2) := not_lt.mpr hmag
    simp only [detect_swipe, h1, h2, if_false]
    split_ifs <;> rfl

/-- Witness for C7: nine samples along the x axis plus a tenth at
x = 0.9 fill the history; the displacement (0.9, 0) beats the 0.15
threshold and classifies RIGHT. -/
theorem detect_swipe_spec_witness :
    (detect_swipe (15/100) 10 ⟨motionHist9⟩ ((9:ℚ)/10, 0)).1 = some .RIGHT := by
  have h := (detect_swipe_spec (15/100) 10 ⟨motionHist9⟩ ((9:ℚ)/10, 0)).2.2.2
    (by decide)
    (by norm_num [dxOf, dyOf, pushBounded, motionHist9])
  rw [h]
  norm_num [dxOf, dyOf, pushBounded, motionHist9]

/-- **C5 counterexample.** With a drag engaged (`is_dragging = true`), a
`POINT` (or `SCROLL`) stable gesture issues *no* release and leaves the
drag held and the hold timer untouched: the `move_cursor` and `scroll`
branches of `_execute_gesture_action` never call `stop_drag`, contrary
to "any non-DRAG stable gesture releases the held button". -/
theorem drag_release_counterexample :
    execute_gesture_action (some .POINT) 2 ⟨true, 1⟩ = ([], ⟨true, 1⟩)
    ∧ execute_gesture_action (some .SCROLL) 2 ⟨true, 1⟩ = ([], ⟨true, 1⟩)
    ∧ (execute_gesture_action (some .POINT) 2 ⟨true, 1⟩).2.is_dragging = true := by
  refine ⟨rfl, rfl, rfl⟩

/-- **C5 (amended).** The dispatcher presses the button only while the
stable gesture maps to the drag action (`DRAG` or `FIST`), only once the
hold timer is running and more than `drag_hold_time` has elapsed, and
only when not already dragging; a drag frame below the hold time issues
nothing, and the first drag frame only starts the timer.  The hold timer
is reset only by `None`/`IDLE` or unmapped gestures (`THUMBS_UP`) — not
by `POINT`, `SCROLL` or click gestures — and an engaged drag is released
by `None`/`IDLE`, the click gestures and unmapped gestures, while
`POINT` and `SCROLL`/`THREE_FINGERS` leave the button held. -/
theorem drag_dispatch_spec (g : Option Gesture) (now : ℚ) (st : DispatchState) :
    (ButtonEvent.press ∈ (execute_gesture_action g now st).1 →
        (g = some .DRAG ∨ g = some .FIST) ∧ st.is_dragging = false
        ∧ st.drag_start_time ≠ 0 ∧ DRAG_HOLD_TIME < now - st.drag_start_time
        ∧ (execute_gesture_action g now st).1 = [.press]
        ∧ (execute_gesture_action g now st).2.is_dragging = true)
    ∧ ((g = some .DRAG ∨ g = some .FIST) → st.drag_start_time = 0 →
        execute_gesture_action g now st = ([], ⟨st.is_dragging, now⟩))
    ∧ ((g = some .DRAG ∨ g = some .FIST) → st.drag_start_time ≠ 0 →
        now - st.drag_start_time ≤ DRAG_HOLD_TIME →
        execute_gesture_action g now st = ([], st))
    ∧ (st.is_dragging = true →
        (ButtonEvent.release ∈ (execute_gesture_action g now st).1 ↔
          (g = none ∨ g = some .IDLE ∨ g = some .LEFT_CLICK ∨ g = some .RIGHT_CLICK
            ∨ g = some .VICTORY ∨ g = some .THUMBS_UP)))
    ∧ ((g = some .POINT ∨ g = some .SCROLL ∨ g = some .THREE_FINGERS) →
        execute_gesture_action g now st = ([], st))
    ∧ (st.drag_start_time ≠ 0 →
        (execute_gesture_action g now st).2.drag_start_time = 0 →
        (g = none ∨ g = some .IDLE ∨ g = some .THUMBS_UP)) := by
  rcases g with _ | g
  · cases hd : st.is_dragging <;>
      simp [execute_gesture_action, stop_drag, hd]
  · cases g
    case IDLE =>
      cases hd : st.is_dragging <;>
        simp [execute_gesture_action, stop_drag, hd]
    case POINT =>
      cases hd : st.is_dragging <;>
        simp [execute_gesture_action, map_gesture_to_action, stop_drag, hd]
    case LEFT_CLICK =>
      cases hd : st.is_dragging <;>
        simp [execute_gesture_action, map_gesture_to_action, stop_drag, hd]
    case RIGHT_CLICK =>
      cases hd : st.is_dragging <;>
        simp [execute_gesture_action, map_gesture_to_action, stop_drag, hd]
    case SCROLL =>
      cases hd : st.is_dragging <;>
        simp [execute_gesture_action, map_gesture_to_action, stop_drag, hd]
    case VICTORY =>
      cases hd : st.is_dragging <;>
        simp [execute_gesture_action, map_gesture_to_action, stop_drag, hd]
    case THREE_FINGERS =>
      cases hd : st.is_dragging <;>
        simp [execute_gesture_action, map_gesture_to_action, stop_drag, hd]
    case THUMBS_UP =>
      cases hd : st.is_dragging <;>
        simp [execute_gesture_action, map_gesture_to_action, stop_drag, hd]
    case DRAG =>
      by_cases h0 : st.drag_start_time = 0
      · cases hd : st.is_dragging <;>
          simp [execute_gesture_action, map_gesture_to_action, start_drag,
            stop_drag, h0, hd]
      · by_cases h1 : DRAG_HOLD_TIME < now - st.drag_start_time
        · have h1' : ¬ now - st.drag_start_time ≤ DRAG_HOLD_TIME := not_le.mpr h1
          cases hd : st.is_dragging <;>
            simp [execute_gesture_action, map_gesture_to_action, start_drag,
              stop_drag, h0, h1, h1', hd]
        · have h1' : ¬ DRAG_HOLD_TIME < now - st.drag_start_time := h1
          cases hd : st.is_dragging <;>
            simp [execute_gesture_action, map_gesture_to_action, start_drag,
              stop_drag, h0, h1', hd]
    case FIST =>
      by_cases h0 : st.drag_start_time = 0
      · cases hd : st.is_dragging <;>
          simp [execute_gesture_action, map_gesture_to_action, start_drag,
            stop_drag, h0, hd]
      · by_cases h1 : DRAG_HOLD_TIME < now - st.drag_start_time
        · have h1' : ¬ now - st.drag_start_time ≤ DRAG_HOLD_TIME := not_le.mpr h1
          cases hd : st.is_dragging <;>
            simp [execute_gesture_action, map_gesture_to_action, start_drag,
              stop_drag, h0, h1, h1', hd]
        · have h1' : ¬ DRAG_HOLD_TIME < now - st.drag_start_time := h1
          cases hd : st.is_dragging <;>
            simp [execute_gesture_action, map_gesture_to_action, start_drag,
              stop_drag, h0, h1', hd]

/-- Witness for C5 (amended): the first `DRAG` frame with the timer unset
only starts the hold timer and issues no event. -/
theorem drag_dispatch_spec_witness :
    execute_gesture_action (some .DRAG) 1 ⟨false, 0⟩ = ([], ⟨false, 1⟩) :=
  (drag_dispatch_spec (some .DRAG) 1 ⟨false, 0⟩).2.1 (Or.inl rfl) rfl

/-- **C8.** `OSController.left_click`: if a first dispatch call fires (its
cooldown has elapsed) and a second call follows within
`left_click_cooldown` of it, exactly one click is invoked — the first
call clicks and records its time, the second returns without clicking
and without touching the recorded time. -/
theorem left_click_cooldown_spec (cooldown : ℚ) (s : ClickState) (t1 t2 : ℚ)
    (h1 : cooldown ≤ t1 - s.last_left_click_time) (h2 : t2 - t1 < cooldown) :
    (left_click cooldown s t1).1 = true
    ∧ (left_click cooldown s t1).2 = ⟨t1⟩
    ∧ (left_click cooldown (left_click cooldown s t1).2 t2).1 = false
    ∧ (left_click cooldown (left_click cooldown s t1).2 t2).2 = ⟨t1⟩ := by
  have hn1 : ¬ (t1 - s.last_left_click_time < cooldown) := not_lt.mpr h1
  have hfst : left_click cooldown s t1 = (true, ⟨t1⟩) := by
    simp [left_click, hn1]
  refine ⟨by rw [hfst], by rw [hfst], ?_, ?_⟩
  · rw [hfst]
    simp [left_click, h2]
  · rw [hfst]
    simp [left_click, h2]

/-- Witness for C8: cooldown 1/2 s, last click at 0, calls at t = 1 and
t = 1.25: the first clicks, the second does not. -/
theorem left_click_cooldown_spec_witness :
    (left_click (1/2) ⟨0⟩ 1).1 = true
    ∧ (left_click (1/2) ⟨0⟩ 1).2 = ⟨1⟩
    ∧ (left_click (1/2) (left_click (1/2) ⟨0⟩ 1).2 (5/4)).1 = false
    ∧ (left_click (1/2) (left_click (1/2) ⟨0⟩ 1).2 (5/4)).2 = ⟨1⟩ :=
  left_click_cooldown_spec (1/2) ⟨0⟩ 1 (5/4) (by norm_num) (by norm_num)

/-- **C9.** Cursor exponential smoothing: from (0,0) toward (100,100)
with factor 0.5 one step gives (50,50) and a second step (75,75); and for
every current value, fixed target and smoothing factor in (0, 1], a step
strictly decreases the distance to the target and never passes it (the
step's remaining offset keeps the sign of the original offset). -/
theorem cursor_smoothing_spec (smoothing c target : ℚ)
    (h0 : 0 < smoothing) (h1 : smoothing ≤ 1) (hne : c ≠ target) :
    move_cursor_smooth (1/2) (0, 0) (100, 100) = (50, 50)
    ∧ move_cursor_smooth (1/2) (50, 50) (100, 100) = (75, 75)
    ∧ |smooth_step smoothing c target - target| < |c - target|
    ∧ 0 ≤ (target - smooth_step smoothing c target) * (target - c) := by
  refine ⟨?_, ?_, ?_, ?_⟩
  · show (smooth_step (1/2) 0 100, smooth_step (1/2) 0 100) = (50, 50)
    unfold smooth_step
    norm_num
  · show (smooth_step (1/2) 50 100, smooth_step (1/2) 50 100) = (75, 75)
    unfold smooth_step
    norm_num
  · have key : smooth_step smoothing c target - target
        = (c - target) * (1 - smoothing) := by
      unfold smooth_step
      ring
    rw [key, abs_mul, abs_of_nonneg (by linarith : (0:ℚ) ≤ 1 - smoothing)]
    have hpos : 0 < |c - target| := abs_pos.mpr (sub_ne_zero.mpr hne)
    calc |c - target| * (1 - smoothing)
        < |c - target| * 1 := mul_lt_mul_of_pos_left (by linarith) hpos
      _ = |c - target| := mul_one _
  · have key : (target - smooth_step smoothing c target) * (target - c)
        = (target - c) ^ 2 * (1 - smoothing) := by
      unfold smooth_step
      ring
    rw [key]
    exact mul_nonneg (sq_nonneg _) (by linarith)

/-- Witness for C9: the documented concrete instance with factor 1/2 from
0 toward 100. -/
theorem cursor_smoothing_spec_witness :
    move_cursor_smooth (1/2) (0, 0) (100, 100) = (50, 50)
    ∧ move_cursor_smooth (1/2) (50, 50) (100, 100) = (75, 75)
    ∧ |smooth_step (1/2) 0 100 - 100| < |(0:ℚ) - 100|
    ∧ 0 ≤ (100 - smooth_step (1/2) 0 100) * (100 - 0) :=
  cursor_smoothing_spec (1/2) 0 100 (by norm_num) (by norm_num) (by norm_num)

/-- Over any sequence of `start_drag`/`stop_drag` calls from any
`is_dragging` state, the emitted events alternate (next expected event
determined by the state) and the press/release counts balance up to the
final state bit. -/
theorem runDrag_invariant (ops : List DragOp) :
    ∀ d : Bool,
      (runDrag d ops).1.count ButtonEvent.press + (if d then 1 else 0)
        = (runDrag d ops).1.count ButtonEvent.release
          + (if (runDrag d ops).2 then 1 else 0)
      ∧ altFrom (if d then .release else .press) (runDrag d ops).1 = true := by
  induction ops with
  | nil =>
    intro d
    simp [runDrag, altFrom]
  | cons op ops ih =>
    intro d
    obtain ⟨ihc_t, iha_t⟩ := ih true
    obtain ⟨ihc_f, iha_f⟩ := ih false
    cases op <;> cases d <;>
      simp only [runDrag, start_drag, stop_drag, if_true, if_false,
        List.cons_append, List.nil_append, List.count_cons, List.count_nil,
        altFrom, flipEvent] <;>
      simp_all [altFrom, flipEvent]
    all_goals omega

/-- **C10.** The drag press/release pair is balanced and idempotent:
`start_drag` presses only when not already dragging (a second
consecutive `start_drag` issues nothing), `stop_drag` releases only when
dragging (a `stop_drag` while idle issues nothing); hence over every
call sequence from the initial non-dragging state the emitted presses
and releases strictly alternate starting with a press, and the number of
outstanding presses equals the final dragging bit (so it is always 0 or
1). -/
theorem drag_alternation_spec :
    start_drag true = ([], true)
    ∧ start_drag false = ([.press], true)
    ∧ stop_drag false = ([], false)
    ∧ stop_drag true = ([.release], false)
    ∧ ∀ ops : List DragOp,
        (runDrag false ops).1.count ButtonEvent.press
          = (runDrag false ops).1.count ButtonEvent.release
            + (if (runDrag false ops).2 then 1 else 0)
        ∧ altFrom .press (runDrag false ops).1 = true := by
  refine ⟨rfl, rfl, rfl, rfl, ?_⟩
  intro ops
  have h := runDrag_invariant ops false
  simpa using h

end GestureCtrl
